import Mathlib

/-!
Shallow embedding of `src/smartpole_privacy_protector.c`, a GTK/GStreamer
CCTV viewer.  Pure state is carried explicitly: the `CustomData` record of
the C file (pipeline pointer, slider widget, tracked state, cached
duration) becomes a Lean structure, and each bus/button callback becomes a
function from that state (plus oracle results for the fallible engine
queries) to a new state together with a trace of externally visible
effects (`Eff`).  Machine `gint64` values are modelled as `Int`; the
`gdouble` slider arithmetic is modelled exactly over `Rat`; the C cast
`(gint64)` is truncation toward zero (`truncZ`).
-/

set_option maxHeartbeats 1000000

namespace SmartPole

/-- GStreamer lifecycle states, in their numeric enum order
(`GST_STATE_VOID_PENDING = 0` … `GST_STATE_PLAYING = 4`). -/
inductive GstState where
  | VOID_PENDING
  | NULL
  | READY
  | PAUSED
  | PLAYING
  deriving DecidableEq, Repr

/-- Numeric value of the `GstState` enum, used for the `<` comparisons of
the C file (`data->state < GST_STATE_PAUSED`). -/
def GstState.toNat : GstState → Nat
  | .VOID_PENDING => 0
  | .NULL => 1
  | .READY => 2
  | .PAUSED => 3
  | .PLAYING => 4

/-- Name of a state as returned by `gst_element_state_get_name`. -/
def GstState.name : GstState → String
  | .VOID_PENDING => "VOID_PENDING"
  | .NULL => "NULL"
  | .READY => "READY"
  | .PAUSED => "PAUSED"
  | .PLAYING => "PLAYING"

/-- Externally visible effects a callback can perform: engine queries,
console prints, slider-widget manipulation, seeks, lifecycle commands,
node-parameter writes (`g_object_set`), button labels, dot-graph dumps. -/
inductive Eff where
  | queryDuration
  | queryPosition
  | printMsg (s : String)
  | setRange (lo hi : ℚ)
  | blockSignal
  | unblockSignal
  | setValue (v : ℚ)
  | seekSimple (flush keyUnit : Bool) (targetNanos : ℤ)
  | seekEvent (flush : Bool) (startNanos : ℤ)
  | setPipelineState (s : GstState)
  | setParam (node key : String) (v : ℤ)
  | setLabel (s : String)
  | dumpGraph (s : String)
  deriving DecidableEq, Repr

/-- `GST_SECOND` (nanoseconds per second), as `gint64`. -/
def GST_SECOND : ℤ := 1000000000

/-- `GST_SECOND` in the exact-rational model of `gdouble` arithmetic. -/
def GST_SECONDQ : ℚ := 1000000000

/-- `GST_CLOCK_TIME_NONE = (GstClockTime)(-1)`, read back through the
`gint64` field `data->duration` (the C file stores it there, line 349). -/
def GST_CLOCK_TIME_NONE : ℤ := -1

/-- `GST_CLOCK_TIME_IS_VALID (t)`: every `gint64` value other than the
`GST_CLOCK_TIME_NONE` sentinel is a valid clock time. -/
def gstClockTimeIsValid (t : ℤ) : Bool := t != GST_CLOCK_TIME_NONE

/-- The `CustomData` record of the C file.  The `GtkWidget *slider` is
replaced by the state GTK keeps for a `GtkRange`: its range bounds and
current value (in seconds, as the C file uses it).  `playbin` is the
object identity of the top-level pipeline element, used for the
pointer comparison in `state_changed_cb`. -/
structure CustomData where
  playbin : Nat
  sliderLo : ℚ
  sliderHi : ℚ
  sliderVal : ℚ
  state : GstState
  duration : ℤ
  deriving DecidableEq, Repr

/-- GTK `CLAMP` of a value into a range `[lo, hi]`. -/
def clampQ (v lo hi : ℚ) : ℚ := max lo (min v hi)

/-- The C cast `(gint64)` of a `gdouble`: truncation toward zero. -/
def truncZ (q : ℚ) : ℤ := if 0 ≤ q then q.floor else -((-q).floor)

/-- `slider_cb` (C lines 91–95): reads the slider value and performs
`gst_element_seek_simple (…, GST_SEEK_FLAG_FLUSH | GST_SEEK_FLAG_KEY_UNIT,
(gint64)(value * GST_SECOND))`.  It mutates no `CustomData` field. -/
def slider_cb (d : CustomData) : CustomData × List Eff :=
  (d, [Eff.seekSimple true true (truncZ (d.sliderVal * GST_SECONDQ))])

/-- `gtk_range_set_value`: GTK clamps the requested value into the
slider's range and, unless the `value-changed` handler is blocked
(`g_signal_handler_block`), emits `value-changed`, which runs the
connected `slider_cb` (connected in `create_ui`, C line 125). -/
def gtkRangeSetValue (d : CustomData) (blocked : Bool) (v : ℚ) :
    CustomData × List Eff :=
  let d2 := { d with sliderVal := clampQ v d.sliderLo d.sliderHi }
  if blocked then (d2, [Eff.setValue v])
  else (d2, Eff.setValue v :: (slider_cb d2).2)

/-- A user drag of the slider to position `v` (seconds): the value is
stored (clamped to the slider's range) and `value-changed` fires
`slider_cb`, which issues the seek. -/
def userMoveSlider (d : CustomData) (v : ℚ) : CustomData × List Eff :=
  gtkRangeSetValue d false v

/-- Effective seek target (nanoseconds) produced by a user drag of the
slider to `s` seconds, as issued by `slider_cb`. -/
def effTarget (d : CustomData) (s : ℚ) : ℤ :=
  truncZ (clampQ s d.sliderLo d.sliderHi * GST_SECONDQ)

/-- Duration half of `refresh_ui` (C lines 157–165): if the cached
duration is not yet valid, query it (`durQ` is the engine's answer,
`none` = query failed); on failure print an error and leave the cache
untouched; on success cache it and set the slider range to
`[0, duration / GST_SECOND]` (GTK clamps the current value into the new
range). -/
def refreshDuration (d : CustomData) (durQ : Option ℤ) :
    CustomData × List Eff :=
  if gstClockTimeIsValid d.duration then (d, [])
  else
    match durQ with
    | none => (d, [Eff.queryDuration,
                   Eff.printMsg "Could not query current duration.\n"])
    | some dur =>
        let hi : ℚ := (dur : ℚ) / GST_SECONDQ
        ({ d with duration := dur, sliderLo := 0, sliderHi := hi,
                  sliderVal := clampQ d.sliderVal 0 hi },
         [Eff.queryDuration, Eff.setRange 0 hi])

/-- Position half of `refresh_ui` (C lines 167–175): query the current
position (`posQ` is the engine's answer); on success block the slider's
`value-changed` signal, set the slider to `position / GST_SECOND`, and
unblock; on failure do nothing further. -/
def refreshPosition (d : CustomData) (posQ : Option ℤ) :
    CustomData × List Eff :=
  match posQ with
  | none => (d, [Eff.queryPosition])
  | some p =>
      let r := gtkRangeSetValue d true ((p : ℚ) / GST_SECONDQ)
      (r.1, Eff.queryPosition :: Eff.blockSignal :: (r.2 ++ [Eff.unblockSignal]))

/-- `refresh_ui` (C lines 150–177), the periodic position poll: below
`GST_STATE_PAUSED` it returns immediately; otherwise it runs the
duration step then the position step. -/
def refresh_ui (d : CustomData) (durQ posQ : Option ℤ) :
    CustomData × List Eff :=
  if d.state.toNat < GstState.PAUSED.toNat then (d, [])
  else
    let r1 := refreshDuration d durQ
    let r2 := refreshPosition r1.1 posQ
    (r2.1, r1.2 ++ r2.2)

/-- Iterated polling: fold `refresh_ui` over a list of
(duration-query answer, position-query answer) pairs. -/
def pollMany (d : CustomData) (qs : List (Option ℤ × Option ℤ)) : CustomData :=
  qs.foldl (fun a q => (refresh_ui a q.1 q.2).1) d

/-- `stop_cb` (C lines 61–63): requests the `READY` state and touches no
`CustomData` field. -/
def stop_cb (d : CustomData) : CustomData × List Eff :=
  (d, [Eff.setPipelineState GstState.READY])

/-- `error_cb` (C lines 189–202): prints the error and the debug info
(`"none"` when the debug string is NULL) and unconditionally requests the
`READY` state; it touches no `CustomData` field. -/
def error_cb (d : CustomData) (srcName msg : String) (debugInfo : Option String) :
    CustomData × List Eff :=
  (d, [Eff.printMsg ("Error received from element " ++ srcName ++ ": " ++ msg ++ "\n"),
       Eff.printMsg ("Debugging information: " ++
         (match debugInfo with | some s => s | none => "none") ++ "\n"),
       Eff.setPipelineState GstState.READY])

/-- `eos_cb` (C lines 206–209), the EOS handler actually connected to the
bus in `main` (C line 635): prints a message and requests `READY`. -/
def eos_cb : List Eff :=
  [Eff.printMsg "End-Of-Stream reached.\n",
   Eff.setPipelineState GstState.READY]

/-- `_eos_cb` (C lines 514–530), the restart-on-EOS handler (present in
the source but never connected to a bus): prints twice, requests `READY`,
attempts `gst_element_seek` (flush, SET to 0, stop type NONE) — `seekOk`
is the engine's answer — prints "Seek failed!" when the seek fails, and
then requests `PLAYING` unconditionally. -/
def _eos_cb (seekOk : Bool) : List Eff :=
  [Eff.printMsg "End-Of-Stream reached.\n",
   Eff.printMsg "End-Of-Stream reached.\n",
   Eff.setPipelineState GstState.READY,
   Eff.seekEvent true 0] ++
  (if seekOk then [] else [Eff.printMsg "Seek failed!\n"]) ++
  [Eff.setPipelineState GstState.PLAYING]

/-- `state_changed_cb` (C lines 213–238): only when the message source is
the pipeline element itself, record the new state, print it, run
`refresh_ui` immediately when the transition is `READY → PAUSED`, and
dump a dot graph named after the transition.  Messages from any other
element leave everything untouched. -/
def state_changed_cb (d : CustomData) (msgSrc : Nat)
    (oldS newS pendS : GstState) (durQ posQ : Option ℤ) :
    CustomData × List Eff :=
  if msgSrc = d.playbin then
    let d1 := { d with state := newS }
    let r :=
      if oldS = GstState.READY ∧ newS = GstState.PAUSED then
        refresh_ui d1 durQ posQ
      else (d1, [])
    (r.1, Eff.printMsg ("State set to " ++ newS.name ++ "\n") ::
          (r.2 ++ [Eff.dumpGraph ("cctv" ++ oldS.name ++ "_" ++ newS.name)]))
  else (d, [])

/-- The UI handler state of one toggle button: the module-level `int`
flag and the current button label. -/
structure ToggleState where
  flag : ℤ
  label : String
  deriving DecidableEq, Repr

/-- `button_faceblur_onoff_func` (C lines 456–473): prints, flips
`_g_is_faceblur_onoff` between 0 and 1 and sets the button label; the
`g_object_set` on the faceblur element is commented out, so no node
parameter is written. -/
def button_faceblur_onoff_func (s : ToggleState) : ToggleState × List Eff :=
  if s.flag = 0 then
    (⟨1, "face SHOW"⟩,
     [Eff.printMsg "button_faceblur_onoff_func\r\n", Eff.setLabel "face SHOW"])
  else
    (⟨0, "face HIDE"⟩,
     [Eff.printMsg "button_faceblur_onoff_func\r\n", Eff.setLabel "face HIDE"])

/-- `button_facearea_onoff_func` (C lines 476–493): prints, writes the
`display` property of the `facedetect` element (1 when enabling, 0 when
disabling), flips `_g_is_facearea_onoff` and sets the button label. -/
def button_facearea_onoff_func (s : ToggleState) : ToggleState × List Eff :=
  if s.flag = 0 then
    (⟨1, "faceArea HIDE"⟩,
     [Eff.printMsg "button_facearea_onoff_func\r\n",
      Eff.setParam "facedetect" "display" 1, Eff.setLabel "faceArea HIDE"])
  else
    (⟨0, "faceArea SHOW"⟩,
     [Eff.printMsg "button_facearea_onoff_func\r\n",
      Eff.setParam "facedetect" "display" 0, Eff.setLabel "faceArea SHOW"])

/-- `button_numberplateblur_onoff_func` (C lines 495–512): prints, flips
`_g_is_numberplateblur_onoff` and sets the button label; the
`g_object_set` is commented out (and the handler is connected with NULL
user data), so no node parameter is written. -/
def button_numberplateblur_onoff_func (s : ToggleState) : ToggleState × List Eff :=
  if s.flag = 0 then
    (⟨1, "numberPlate SHOW"⟩,
     [Eff.printMsg "button_numberplateblur_onoff_func\r\n",
      Eff.setLabel "numberPlate SHOW"])
  else
    (⟨0, "numberPlate HIDE"⟩,
     [Eff.printMsg "button_numberplateblur_onoff_func\r\n",
      Eff.setLabel "numberPlate HIDE"])

/-- Initial `CustomData` as set up by `_main` (C lines 347–349: zeroed
record, `duration = GST_CLOCK_TIME_NONE`) and `create_ui` (C line 123:
slider created with range `[0, 100]`, initial value 0).  The pipeline
object identity is an arbitrary fresh id. -/
def initCustomData : CustomData :=
  { playbin := 1, sliderLo := 0, sliderHi := 100, sliderVal := 0,
    state := GstState.VOID_PENDING, duration := GST_CLOCK_TIME_NONE }

/-- Lifecycle-state commands issued in a trace. -/
def stateCmds (t : List Eff) : List GstState :=
  t.filterMap fun e => match e with
    | Eff.setPipelineState s => some s
    | _ => none

/-- Node-parameter writes issued in a trace. -/
def paramCmds (t : List Eff) : List (String × String × ℤ) :=
  t.filterMap fun e => match e with
    | Eff.setParam n k v => some (n, k, v)
    | _ => none

/-- Checks that in a trace every `setValue` (a programmatic slider push)
is immediately preceded by `blockSignal` and immediately followed by
`unblockSignal`, and that block/unblock occur nowhere else: the
`value-changed` signal is suppressed for exactly each single push. -/
def wfPush : List Eff → Bool
  | [] => true
  | Eff.blockSignal :: Eff.setValue _ :: Eff.unblockSignal :: t => wfPush t
  | Eff.blockSignal :: _ => false
  | Eff.setValue _ :: _ => false
  | Eff.unblockSignal :: _ => false
  | _ :: t => wfPush t

/-- Whether an effect is the seek issued by the slider's `value-changed`
handler `slider_cb`. -/
def isUserSeek : Eff → Bool
  | Eff.seekSimple _ _ _ => true
  | _ => false

/-- Initial state of the face-blur toggle: `_g_is_faceblur_onoff = 0`
(C line 455) and the button label `"face HIDE"` (C line 592). -/
def fbInit : ToggleState := ⟨0, "face HIDE"⟩

/-- Initial state of the face-area toggle: `_g_is_facearea_onoff = 0`
(C line 475) and the button label `"faceArea SHOW"` (C line 599). -/
def faInit : ToggleState := ⟨0, "faceArea SHOW"⟩

/-- Initial state of the number-plate toggle:
`_g_is_numberplateblur_onoff = 0` (C line 494) and the button label
`"numberPlate HIDE"` (C line 608). -/
def npInit : ToggleState := ⟨0, "numberPlate HIDE"⟩

/-- States the face-blur toggle can be in at rest (closed under the
handler, holds initially). -/
def fbReach (s : ToggleState) : Prop := s = ⟨0, "face HIDE"⟩ ∨ s = ⟨1, "face SHOW"⟩

/-- States the face-area toggle can be in at rest. -/
def faReach (s : ToggleState) : Prop := s = ⟨0, "faceArea SHOW"⟩ ∨ s = ⟨1, "faceArea HIDE"⟩

/-- States the number-plate toggle can be in at rest. -/
def npReach (s : ToggleState) : Prop := s = ⟨0, "numberPlate HIDE"⟩ ∨ s = ⟨1, "numberPlate SHOW"⟩

/-!  Helper lemmas. -/

theorem ratFloor_eq_intFloor (q : ℚ) : q.floor = ⌊q⌋ :=
  (Rat.floor_def' q).trans Rat.floor_def.symm

theorem truncZ_of_nonneg {q : ℚ} (h : 0 ≤ q) : truncZ q = ⌊q⌋ := by
  rw [truncZ, if_pos h, ratFloor_eq_intFloor]

theorem truncZ_intCast (z : ℤ) : truncZ ((z : ℚ)) = z := by
  by_cases h : (0 : ℚ) ≤ (z : ℚ)
  · rw [truncZ_of_nonneg h, Int.floor_intCast]
  · rw [truncZ, if_neg h, ratFloor_eq_intFloor, ← Int.cast_neg, Int.floor_intCast, neg_neg]

theorem refresh_ui_not_paused (d : CustomData) (durQ posQ : Option ℤ)
    (h : d.state.toNat < GstState.PAUSED.toNat) :
    refresh_ui d durQ posQ = (d, []) := by
  simp [refresh_ui, h]

theorem refresh_ui_paused (d : CustomData) (durQ posQ : Option ℤ)
    (h : ¬ d.state.toNat < GstState.PAUSED.toNat) :
    refresh_ui d durQ posQ =
      ((refreshPosition (refreshDuration d durQ).1 posQ).1,
       (refreshDuration d durQ).2 ++ (refreshPosition (refreshDuration d durQ).1 posQ).2) := by
  simp [refresh_ui, h]

theorem refreshDuration_valid (d : CustomData) (durQ : Option ℤ)
    (h : gstClockTimeIsValid d.duration = true) :
    refreshDuration d durQ = (d, []) := by
  simp [refreshDuration, h]

theorem refreshDuration_invalid_none (d : CustomData)
    (h : gstClockTimeIsValid d.duration = false) :
    refreshDuration d none =
      (d, [Eff.queryDuration, Eff.printMsg "Could not query current duration.\n"]) := by
  simp [refreshDuration, h]

theorem refreshDuration_invalid_some (d : CustomData) (dur : ℤ)
    (h : gstClockTimeIsValid d.duration = false) :
    refreshDuration d (some dur) =
      ({ d with duration := dur, sliderLo := 0, sliderHi := (dur : ℚ) / GST_SECONDQ,
                sliderVal := clampQ d.sliderVal 0 ((dur : ℚ) / GST_SECONDQ) },
       [Eff.queryDuration, Eff.setRange 0 ((dur : ℚ) / GST_SECONDQ)]) := by
  simp [refreshDuration, h]

theorem refreshPosition_none (d : CustomData) :
    refreshPosition d none = (d, [Eff.queryPosition]) := rfl

theorem refreshPosition_some (d : CustomData) (p : ℤ) :
    refreshPosition d (some p) =
      ({ d with sliderVal := clampQ ((p : ℚ) / GST_SECONDQ) d.sliderLo d.sliderHi },
       [Eff.queryPosition, Eff.blockSignal, Eff.setValue ((p : ℚ) / GST_SECONDQ),
        Eff.unblockSignal]) := rfl

theorem refreshDuration_state (d : CustomData) (durQ : Option ℤ) :
    (refreshDuration d durQ).1.state = d.state ∧
    (refreshDuration d durQ).1.playbin = d.playbin := by
  by_cases h : gstClockTimeIsValid d.duration
  · rw [refreshDuration_valid d durQ h]; exact ⟨rfl, rfl⟩
  · cases durQ with
    | none => rw [refreshDuration_invalid_none d (by simpa using h)]; exact ⟨rfl, rfl⟩
    | some dur => rw [refreshDuration_invalid_some d dur (by simpa using h)]; exact ⟨rfl, rfl⟩

theorem refreshPosition_state (d : CustomData) (posQ : Option ℤ) :
    (refreshPosition d posQ).1.state = d.state ∧
    (refreshPosition d posQ).1.playbin = d.playbin ∧
    (refreshPosition d posQ).1.duration = d.duration ∧
    (refreshPosition d posQ).1.sliderLo = d.sliderLo ∧
    (refreshPosition d posQ).1.sliderHi = d.sliderHi := by
  cases posQ with
  | none => exact ⟨rfl, rfl, rfl, rfl, rfl⟩
  | some p => exact ⟨rfl, rfl, rfl, rfl, rfl⟩

theorem refresh_ui_state (d : CustomData) (durQ posQ : Option ℤ) :
    (refresh_ui d durQ posQ).1.state = d.state ∧
    (refresh_ui d durQ posQ).1.playbin = d.playbin := by
  by_cases h : d.state.toNat < GstState.PAUSED.toNat
  · rw [refresh_ui_not_paused d durQ posQ h]; exact ⟨rfl, rfl⟩
  · rw [refresh_ui_paused d durQ posQ h]
    have h1 := refreshDuration_state d durQ
    have h2 := refreshPosition_state (refreshDuration d durQ).1 posQ
    exact ⟨h2.1.trans h1.1, h2.2.1.trans h1.2⟩

theorem refresh_ui_queryPos (d : CustomData) (durQ posQ : Option ℤ)
    (h : ¬ d.state.toNat < GstState.PAUSED.toNat) :
    Eff.queryPosition ∈ (refresh_ui d durQ posQ).2 := by
  rw [refresh_ui_paused d durQ posQ h]
  refine List.mem_append_right _ ?_
  cases posQ with
  | none => exact List.Mem.head _
  | some p => exact List.Mem.head _

/-!  Claims. -/

/-- C1, counterexample: in `_eos_cb`, when the seek fails the failure is
surfaced by printing "Seek failed!", yet the handler still requests
`PLAYING` afterwards — playback is not left stopped, contrary to the
claim. -/
theorem claim1_counterexample :
    Eff.printMsg "Seek failed!\n" ∈ _eos_cb false ∧
    (_eos_cb false).getLast? = some (Eff.setPipelineState GstState.PLAYING) := by
  decide

/-- C1 (amended): on EndOfStream, `_eos_cb` performs stop (`READY`),
then a single flush seek to 0 (no retry), then play (`PLAYING`)
unconditionally; a seek failure is surfaced by printing "Seek failed!"
but the handler still proceeds to play, so playback is not left stopped.
The EOS handler actually connected to the bus in `main` (`eos_cb`) only
stops the pipeline and performs no seek or restart. -/
theorem claim1_eos_restart (b : Bool) :
    (_eos_cb b).get? 2 = some (Eff.setPipelineState GstState.READY) ∧
    (_eos_cb b).get? 3 = some (Eff.seekEvent true 0) ∧
    (_eos_cb b).getLast? = some (Eff.setPipelineState GstState.PLAYING) ∧
    ((_eos_cb b).countP (fun e => match e with
      | Eff.seekEvent _ _ => true
      | _ => false)) = 1 ∧
    ((Eff.printMsg "Seek failed!\n" ∈ _eos_cb b) ↔ b = false) ∧
    stateCmds eos_cb = [GstState.READY] := by
  cases b <;> decide

/-- C5: on an Error event, `error_cb` prints the error (surfacing it),
issues exactly one lifecycle command, namely `READY`, unconditionally
(there is no dependence on any pending transition), and issues no
`PLAYING` command — playback is not automatically restarted — and leaves
the shared record untouched. -/
theorem claim5_error_forces_ready (d : CustomData) (srcName msg : String)
    (debugInfo : Option String) :
    stateCmds (error_cb d srcName msg debugInfo).2 = [GstState.READY] ∧
    Eff.printMsg ("Error received from element " ++ srcName ++ ": " ++ msg ++ "\n")
      ∈ (error_cb d srcName msg debugInfo).2 ∧
    (error_cb d srcName msg debugInfo).1 = d := by
  exact ⟨rfl, List.Mem.head _, rfl⟩

/-- C7, counterexample: starting from a state whose cached duration is
the known value 42, `stop_cb` leaves the cached duration at 42 — still a
valid clock time, not reset to unknown as the claim states. -/
theorem claim7_counterexample :
    (stop_cb { initCustomData with duration := 42 }).1.duration = 42 ∧
    gstClockTimeIsValid (stop_cb { initCustomData with duration := 42 }).1.duration = true := by
  decide

/-- C7 (amended): `stop_cb` only requests the `READY` state and leaves
every `CustomData` field, in particular the cached duration, unchanged;
the duration is set to unknown once, at initialization, and consequently
a poll following a stop with a still-valid cached duration does not
re-query the duration. -/
theorem claim7_stop_keeps_duration (d : CustomData) (durQ posQ : Option ℤ) :
    (stop_cb d).1 = d ∧
    (stop_cb d).2 = [Eff.setPipelineState GstState.READY] ∧
    initCustomData.duration = GST_CLOCK_TIME_NONE ∧
    (gstClockTimeIsValid d.duration = true →
      Eff.queryDuration ∉ (refresh_ui (stop_cb d).1 durQ posQ).2) := by
  refine ⟨rfl, rfl, rfl, fun hv => ?_⟩
  show Eff.queryDuration ∉ (refresh_ui d durQ posQ).2
  by_cases h : d.state.toNat < GstState.PAUSED.toNat
  · rw [refresh_ui_not_paused d durQ posQ h]; simp
  · rw [refresh_ui_paused d durQ posQ h, refreshDuration_valid d durQ hv]
    cases posQ with
    | none => simp [refreshPosition_none]
    | some p => simp [refreshPosition_some]

/-- C7 witness: with a valid cached duration of 42 at `PAUSED`, the poll
following a stop does not query the duration. -/
theorem claim7_witness :
    Eff.queryDuration ∉
      (refresh_ui (stop_cb { initCustomData with duration := 42, state := GstState.PAUSED }).1
        none (some 3)).2 :=
  (claim7_stop_keeps_duration
    { initCustomData with duration := 42, state := GstState.PAUSED }
    none (some 3)).2.2.2 (by decide)

/-- C8, counterexample: one invocation of the face-blur toggle (and of
the number-plate toggle) from its initial state writes no node
parameter at all — the `g_object_set` calls are commented out — contrary
to the claim that every toggle invocation mutates the corresponding
node's runtime parameter. -/
theorem claim8_counterexample :
    paramCmds (button_faceblur_onoff_func fbInit).2 = [] ∧
    paramCmds (button_numberplateblur_onoff_func npInit).2 = [] := by
  decide

/-- C8 (amended): only the face-area toggle mutates a node's runtime
parameter: each invocation writes the `facedetect` element's `display`
property (1 when enabling, 0 when disabling) and issues no lifecycle
command (no pipeline rebuild or restart); the face-blur and number-plate
toggles write no node parameter at all, changing only their flag and
button label. -/
theorem claim8_toggle_params (s : ToggleState) :
    paramCmds (button_facearea_onoff_func s).2 =
      [("facedetect", "display", if s.flag = 0 then 1 else 0)] ∧
    stateCmds (button_facearea_onoff_func s).2 = [] ∧
    paramCmds (button_faceblur_onoff_func s).2 = [] ∧
    paramCmds (button_numberplateblur_onoff_func s).2 = [] ∧
    stateCmds (button_faceblur_onoff_func s).2 = [] ∧
    stateCmds (button_numberplateblur_onoff_func s).2 = [] := by
  by_cases h : s.flag = 0 <;>
    simp [button_facearea_onoff_func, button_faceblur_onoff_func,
      button_numberplateblur_onoff_func, h, paramCmds, stateCmds]

/-- C9: a state-changed message whose source is not the pipeline element
leaves the whole shared record unchanged and performs no effect. -/
theorem claim9_child_msgs_ignored (d : CustomData) (msgSrc : Nat)
    (oldS newS pendS : GstState) (durQ posQ : Option ℤ)
    (h : msgSrc ≠ d.playbin) :
    state_changed_cb d msgSrc oldS newS pendS durQ posQ = (d, []) := by
  simp [state_changed_cb, h]

/-- C9 witness: a child-element message (source id 2, pipeline id 1)
reporting `READY → PAUSED` changes nothing. -/
theorem claim9_witness :
    state_changed_cb initCustomData 2 GstState.READY GstState.PAUSED
      GstState.VOID_PENDING none (some 5) = (initCustomData, []) :=
  claim9_child_msgs_ignored initCustomData 2 GstState.READY GstState.PAUSED
    GstState.VOID_PENDING none (some 5) (by decide)

/-- C10: each toggle handler, on every state the program can reach
(characterized by `fbReach`/`faReach`/`npReach`: these hold of the
initial state and are preserved by the handler), flips the flag between
exactly 0 and 1, sets the label accordingly, and is an involution: two
consecutive invocations restore both flag and label. -/
theorem claim10_toggle_involution :
    (∀ s, fbReach s →
      (button_faceblur_onoff_func (button_faceblur_onoff_func s).1).1 = s ∧
      (button_faceblur_onoff_func s).1.flag = 1 - s.flag ∧
      fbReach (button_faceblur_onoff_func s).1) ∧
    fbReach fbInit ∧
    (∀ s, faReach s →
      (button_facearea_onoff_func (button_facearea_onoff_func s).1).1 = s ∧
      (button_facearea_onoff_func s).1.flag = 1 - s.flag ∧
      faReach (button_facearea_onoff_func s).1) ∧
    faReach faInit ∧
    (∀ s, npReach s →
      (button_numberplateblur_onoff_func (button_numberplateblur_onoff_func s).1).1 = s ∧
      (button_numberplateblur_onoff_func s).1.flag = 1 - s.flag ∧
      npReach (button_numberplateblur_onoff_func s).1) ∧
    npReach npInit := by
  refine ⟨fun s h => ?_, Or.inl rfl, fun s h => ?_, Or.inl rfl, fun s h => ?_, Or.inl rfl⟩ <;>
    rcases h with rfl | rfl <;>
    first
      | exact ⟨rfl, by decide, Or.inr rfl⟩
      | exact ⟨rfl, by decide, Or.inl rfl⟩

theorem userMoveSlider_trace (d : CustomData) (s : ℚ) :
    (userMoveSlider d s).2 = [Eff.setValue s, Eff.seekSimple true true (effTarget d s)] := rfl

theorem pollMany_nil (d : CustomData) : pollMany d [] = d := rfl

theorem pollMany_cons (d : CustomData) (q : Option ℤ × Option ℤ)
    (qs : List (Option ℤ × Option ℤ)) :
    pollMany d (q :: qs) = pollMany (refresh_ui d q.1 q.2).1 qs := rfl

theorem pollMany_append (d : CustomData) (l1 l2 : List (Option ℤ × Option ℤ)) :
    pollMany d (l1 ++ l2) = pollMany (pollMany d l1) l2 :=
  List.foldl_append _ _ _ _

theorem refresh_fail_dur (d : CustomData) (posQ : Option ℤ)
    (hst : ¬ d.state.toNat < GstState.PAUSED.toNat)
    (hd : gstClockTimeIsValid d.duration = false) :
    (refresh_ui d none posQ).1.duration = d.duration ∧
    (refresh_ui d none posQ).1.state = d.state ∧
    (refresh_ui d none posQ).1.sliderLo = d.sliderLo ∧
    (refresh_ui d none posQ).1.sliderHi = d.sliderHi ∧
    (posQ = none → (refresh_ui d none posQ).1.sliderVal = d.sliderVal) ∧
    (∀ p, posQ = some p → (refresh_ui d none posQ).1.sliderVal =
      clampQ ((p : ℚ) / GST_SECONDQ) d.sliderLo d.sliderHi) := by
  rw [refresh_ui_paused d none posQ hst, refreshDuration_invalid_none d hd]
  cases posQ with
  | none =>
      refine ⟨rfl, rfl, rfl, rfl, fun _ => rfl, fun p hp => ?_⟩
      exact absurd hp (by simp)
  | some p =>
      refine ⟨rfl, rfl, rfl, rfl, fun hp => ?_, fun p2 hp => ?_⟩
      · exact absurd hp (by simp)
      · cases hp; rfl

theorem pollMany_fail_dur (qs : List (Option ℤ)) (d : CustomData)
    (hst : ¬ d.state.toNat < GstState.PAUSED.toNat)
    (hd : gstClockTimeIsValid d.duration = false) :
    (pollMany d (qs.map fun p => (none, p))).duration = d.duration ∧
    (pollMany d (qs.map fun p => (none, p))).state = d.state ∧
    (pollMany d (qs.map fun p => (none, p))).sliderLo = d.sliderLo ∧
    (pollMany d (qs.map fun p => (none, p))).sliderHi = d.sliderHi := by
  induction qs generalizing d with
  | nil => exact ⟨rfl, rfl, rfl, rfl⟩
  | cons q qs ih =>
      have h1 := refresh_fail_dur d q hst hd
      have hst2 : ¬ (refresh_ui d none q).1.state.toNat < GstState.PAUSED.toNat := by
        rw [h1.2.1]; exact hst
      have hd2 : gstClockTimeIsValid (refresh_ui d none q).1.duration = false := by
        rw [h1.1]; exact hd
      have ih2 := ih (refresh_ui d none q).1 hst2 hd2
      simp only [List.map_cons]
      rw [pollMany_cons]
      exact ⟨ih2.1.trans h1.1, ih2.2.1.trans h1.2.1,
             ih2.2.2.1.trans h1.2.2.1, ih2.2.2.2.trans h1.2.2.2.1⟩

/-- C2, counterexample: with the duration still unknown (the initial
state), a user seek request to 200 seconds does not pass through
unclamped — the slider clamps it to its initial range `[0, 100]`, so the
issued seek target is 100 seconds in nanoseconds, not 200. -/
theorem claim2_counterexample :
    gstClockTimeIsValid initCustomData.duration = false ∧
    (userMoveSlider initCustomData 200).2 =
      [Eff.setValue 200, Eff.seekSimple true true 100000000000] ∧
    (100000000000 : ℤ) ≠ 200 * GST_SECOND := by
  refine ⟨rfl, ?_, by decide⟩
  rw [userMoveSlider_trace]
  have hcl : clampQ 200 initCustomData.sliderLo initCustomData.sliderHi = 100 := by
    norm_num [clampQ, initCustomData, min_def, max_def]
  have hmul : (100 : ℚ) * GST_SECONDQ = ((100000000000 : ℤ) : ℚ) := by
    norm_num [GST_SECONDQ]
  rw [effTarget, hcl, hmul, truncZ_intCast]

/-- C2 (amended): every user seek is issued with the flush flag set, at
the target obtained by clamping the request into the slider's current
range; once the duration is known (the slider range having been set to
`[0, duration/GST_SECOND]` by a successful duration query) the effective
target lies in `[0, duration]`, a request beyond the duration yields
exactly `duration` and a negative request yields exactly 0; while the
duration is unknown the request is clamped into the slider's initial
range `[0, 100]` seconds rather than passed through. -/
theorem claim2_seek_clamping (d : CustomData) (s : ℚ) :
    ((userMoveSlider d s).2 = [Eff.setValue s, Eff.seekSimple true true (effTarget d s)]) ∧
    (∀ dur : ℤ, 0 ≤ dur → d.sliderLo = 0 → d.sliderHi = (dur : ℚ) / GST_SECONDQ →
      0 ≤ effTarget d s ∧ effTarget d s ≤ dur ∧
      ((dur : ℚ) < s * GST_SECONDQ → effTarget d s = dur) ∧
      (s < 0 → effTarget d s = 0)) ∧
    (d.sliderLo = 0 → d.sliderHi = 100 →
      effTarget d s = truncZ (clampQ s 0 100 * GST_SECONDQ)) := by
  refine ⟨rfl, fun dur hdur hlo hhi => ?_, fun hlo hhi => by rw [effTarget, hlo, hhi]⟩
  have hQ : (0 : ℚ) < GST_SECONDQ := by norm_num [GST_SECONDQ]
  have hdq : (0 : ℚ) ≤ (dur : ℚ) / GST_SECONDQ :=
    div_nonneg (by exact_mod_cast hdur) hQ.le
  have hc0 : 0 ≤ clampQ s d.sliderLo d.sliderHi := by
    rw [clampQ, hlo]; exact le_max_left _ _
  have hcd : clampQ s d.sliderLo d.sliderHi ≤ (dur : ℚ) / GST_SECONDQ := by
    rw [clampQ, hlo, hhi]; exact max_le hdq (min_le_right _ _)
  have h0q : 0 ≤ clampQ s d.sliderLo d.sliderHi * GST_SECONDQ := mul_nonneg hc0 hQ.le
  have hqd : clampQ s d.sliderLo d.sliderHi * GST_SECONDQ ≤ (dur : ℚ) := by
    calc clampQ s d.sliderLo d.sliderHi * GST_SECONDQ
        ≤ ((dur : ℚ) / GST_SECONDQ) * GST_SECONDQ :=
          mul_le_mul_of_nonneg_right hcd hQ.le
      _ = (dur : ℚ) := div_mul_cancel₀ _ (ne_of_gt hQ)
  have hteq : effTarget d s = ⌊clampQ s d.sliderLo d.sliderHi * GST_SECONDQ⌋ := by
    rw [effTarget, truncZ_of_nonneg h0q]
  refine ⟨?_, ?_, ?_, ?_⟩
  · rw [hteq]; exact Int.le_floor.mpr (by exact_mod_cast h0q)
  · rw [hteq]
    have h2 := Int.floor_le_floor hqd
    rwa [Int.floor_intCast] at h2
  · intro hgt
    have hsd : (dur : ℚ) / GST_SECONDQ < s := (div_lt_iff₀ hQ).mpr hgt
    have hcl : clampQ s d.sliderLo d.sliderHi = (dur : ℚ) / GST_SECONDQ := by
      rw [clampQ, hlo, hhi, min_eq_right hsd.le, max_eq_right hdq]
    rw [effTarget, hcl, div_mul_cancel₀ _ (ne_of_gt hQ), truncZ_intCast]
  · intro hneg
    have hcl : clampQ s d.sliderLo d.sliderHi = 0 := by
      rw [clampQ, hlo]
      exact max_eq_left (le_of_lt (lt_of_le_of_lt (min_le_left _ _) hneg))
    rw [effTarget, hcl, zero_mul]
    simpa using truncZ_intCast 0

/-- C2 witness: with a known duration of 5 seconds (slider range set from
it), a 7-second request produces an effective target within
`[0, 5000000000]` nanoseconds. -/
theorem claim2_witness :
    0 ≤ effTarget { initCustomData with sliderHi := ((5000000000 : ℤ) : ℚ) / GST_SECONDQ } 7 ∧
    effTarget { initCustomData with sliderHi := ((5000000000 : ℤ) : ℚ) / GST_SECONDQ } 7
      ≤ 5000000000 :=
  ⟨((claim2_seek_clamping { initCustomData with
      sliderHi := ((5000000000 : ℤ) : ℚ) / GST_SECONDQ } 7).2.1
      5000000000 (by decide) rfl rfl).1,
   ((claim2_seek_clamping { initCustomData with
      sliderHi := ((5000000000 : ℤ) : ℚ) / GST_SECONDQ } 7).2.1
      5000000000 (by decide) rfl rfl).2.1⟩

/-- C3, counterexample: a call to the poll while the pipeline is only
`READY` returns immediately: even though a position query would succeed
(the oracle answers 5), nothing is queried and nothing is updated —
refuting the claim's "for every call … always attempts to query the
current position". -/
theorem claim3_counterexample :
    refresh_ui { initCustomData with state := GstState.READY } none (some 5) =
      ({ initCustomData with state := GstState.READY }, []) := rfl

/-- C3 (amended): for every poll call made while the state is at least
`PAUSED`: if the duration is unknown it is queried — cached on success,
left unknown on a failed query; the position is always queried, a
successful query updates the displayed position (clamped into the
slider range) and a failed one changes nothing, with both queries
failing the whole record is unchanged; and after any number of
consecutive duration-query failures the duration is still unknown while
a successful position query still updates the displayed position. -/
theorem claim3_poll_contract (d : CustomData) (durQ posQ : Option ℤ)
    (hst : GstState.PAUSED.toNat ≤ d.state.toNat) :
    (gstClockTimeIsValid d.duration = false →
      Eff.queryDuration ∈ (refresh_ui d durQ posQ).2 ∧
      (durQ = none → (refresh_ui d durQ posQ).1.duration = d.duration) ∧
      (∀ dur, durQ = some dur → (refresh_ui d durQ posQ).1.duration = dur)) ∧
    Eff.queryPosition ∈ (refresh_ui d durQ posQ).2 ∧
    (∀ p, posQ = some p → (refresh_ui d durQ posQ).1.sliderVal =
      clampQ ((p : ℚ) / GST_SECONDQ) (refresh_ui d durQ posQ).1.sliderLo
        (refresh_ui d durQ posQ).1.sliderHi) ∧
    (posQ = none → durQ = none → (refresh_ui d durQ posQ).1 = d) ∧
    (gstClockTimeIsValid d.duration = false →
      ∀ qs : List (Option ℤ),
        (pollMany d (qs.map fun p => (none, p))).duration = d.duration ∧
        ∀ p : ℤ,
          (pollMany d ((qs.map fun p2 => (none, p2)) ++ [(none, some p)])).sliderVal =
            clampQ ((p : ℚ) / GST_SECONDQ) d.sliderLo d.sliderHi) := by
  have hlt : ¬ d.state.toNat < GstState.PAUSED.toNat := not_lt.mpr hst
  refine ⟨fun hd => ?_, refresh_ui_queryPos d durQ posQ hlt, fun p hp => ?_, fun hp hq => ?_,
          fun hd qs => ?_⟩
  · rw [refresh_ui_paused d durQ posQ hlt]
    cases durQ with
    | none =>
        rw [refreshDuration_invalid_none d hd]
        refine ⟨List.mem_append_left _ (List.Mem.head _), fun _ => ?_, fun dur hdur => ?_⟩
        · exact (refreshPosition_state d posQ).2.2.1
        · exact absurd hdur (by simp)
    | some dur =>
        rw [refreshDuration_invalid_some d dur hd]
        refine ⟨List.mem_append_left _ (List.Mem.head _), fun h => absurd h (by simp),
                fun dur2 hdur => ?_⟩
        cases hdur
        exact (refreshPosition_state _ posQ).2.2.1
  · cases hp
    rw [refresh_ui_paused d durQ (some p) hlt, refreshPosition_some]
  · cases hp; cases hq
    rw [refresh_ui_paused d none none hlt]
    by_cases hv : gstClockTimeIsValid d.duration
    · rw [refreshDuration_valid d none hv, refreshPosition_none]
    · rw [refreshDuration_invalid_none d (by simpa using hv), refreshPosition_none]
  · refine ⟨(pollMany_fail_dur qs d hlt hd).1, fun p => ?_⟩
    rw [pollMany_append]
    have hmid := pollMany_fail_dur qs d hlt hd
    have hstm : ¬ (pollMany d (qs.map fun p => (none, p))).state.toNat <
        GstState.PAUSED.toNat := by rw [hmid.2.1]; exact hlt
    have hdm : gstClockTimeIsValid (pollMany d (qs.map fun p => (none, p))).duration
        = false := by rw [hmid.1]; exact hd
    rw [pollMany_cons, pollMany_nil]
    have hstep := (refresh_fail_dur (pollMany d (qs.map fun p => (none, p)))
      (some p) hstm hdm).2.2.2.2.2 p rfl
    rw [hstep, hmid.2.2.1, hmid.2.2.2]

/-- C3 witness: at `PAUSED` with unknown duration, a poll whose duration
query fails and whose position query succeeds still queries the
position, and the duration stays unknown. -/
theorem claim3_witness :
    Eff.queryPosition ∈
      (refresh_ui { initCustomData with state := GstState.PAUSED } none (some 5)).2 ∧
    (refresh_ui { initCustomData with state := GstState.PAUSED } none (some 5)).1.duration =
      ({ initCustomData with state := GstState.PAUSED } : CustomData).duration := by
  have h := claim3_poll_contract { initCustomData with state := GstState.PAUSED }
    none (some 5) (by decide)
  exact ⟨h.2.1, (h.1 (by decide)).2.1 rfl⟩

/-- C4: in every trace the poll can produce, each programmatic slider
push (`setValue`) is immediately preceded by blocking the
`value-changed` signal and immediately followed by unblocking it, block
and unblock occur nowhere else, and no user-seek (`seekSimple`, the
effect of `slider_cb`) is ever triggered by the refresh. -/
theorem claim4_blocked_push (d : CustomData) (durQ posQ : Option ℤ) :
    wfPush (refresh_ui d durQ posQ).2 = true ∧
    (refresh_ui d durQ posQ).2.all (fun e => !(isUserSeek e)) = true := by
  by_cases h : d.state.toNat < GstState.PAUSED.toNat
  · rw [refresh_ui_not_paused d durQ posQ h]; exact ⟨rfl, rfl⟩
  · rw [refresh_ui_paused d durQ posQ h]
    by_cases hv : gstClockTimeIsValid d.duration
    · rw [refreshDuration_valid d durQ hv]
      cases posQ with
      | none => exact ⟨rfl, rfl⟩
      | some p => exact ⟨rfl, rfl⟩
    · have hv2 : gstClockTimeIsValid d.duration = false := by simpa using hv
      cases durQ with
      | none =>
          rw [refreshDuration_invalid_none d hv2]
          cases posQ with
          | none => exact ⟨rfl, rfl⟩
          | some p => exact ⟨rfl, rfl⟩
      | some dur =>
          rw [refreshDuration_invalid_some d dur hv2]
          cases posQ with
          | none => exact ⟨rfl, rfl⟩
          | some p => exact ⟨rfl, rfl⟩

/-- C6, counterexample: a `READY → PAUSED` state-changed notification
arriving from a child element (source id 2, pipeline id 1) triggers no
refresh at all — no query, no mutation — refuting the claim's
unconditional "whenever a state-changed notification reports
Ready → Paused". -/
theorem claim6_counterexample :
    state_changed_cb initCustomData 2 GstState.READY GstState.PAUSED
      GstState.VOID_PENDING (some 5) (some 5) = (initCustomData, []) := rfl

/-- C6 (amended): when a state-changed notification whose source is the
top-level pipeline reports `READY → PAUSED`, an immediate refresh is
triggered (it queries the position) and the refresh mutates no lifecycle
state (the tracked state is exactly the reported new state, `PAUSED`,
whatever the refresh oracles answer); for any other (old, new) pair —
from any source — no refresh occurs (no query effect at all). -/
theorem claim6_ready_paused_refresh (d : CustomData) (msgSrc : Nat)
    (oldS newS pendS : GstState) (durQ posQ : Option ℤ) :
    (msgSrc = d.playbin → oldS = GstState.READY → newS = GstState.PAUSED →
      Eff.queryPosition ∈ (state_changed_cb d msgSrc oldS newS pendS durQ posQ).2 ∧
      (state_changed_cb d msgSrc oldS newS pendS durQ posQ).1.state = GstState.PAUSED) ∧
    (¬(oldS = GstState.READY ∧ newS = GstState.PAUSED) →
      Eff.queryPosition ∉ (state_changed_cb d msgSrc oldS newS pendS durQ posQ).2 ∧
      Eff.queryDuration ∉ (state_changed_cb d msgSrc oldS newS pendS durQ posQ).2) := by
  constructor
  · intro h1 h2 h3
    subst h1; subst h2; subst h3
    have hc : GstState.READY = GstState.READY ∧ GstState.PAUSED = GstState.PAUSED :=
      ⟨rfl, rfl⟩
    simp only [state_changed_cb, if_pos rfl, if_pos hc]
    refine ⟨List.mem_cons_of_mem _ (List.mem_append_left _
      (refresh_ui_queryPos { d with state := GstState.PAUSED } durQ posQ
        (Nat.lt_irrefl 3))), ?_⟩
    exact (refresh_ui_state { d with state := GstState.PAUSED } durQ posQ).1
  · intro hn
    by_cases hm : msgSrc = d.playbin
    · subst hm
      simp only [state_changed_cb, if_pos rfl, if_neg hn]
      simp
    · simp only [state_changed_cb, if_neg hm]
      simp

/-- C6 witness: a pipeline-sourced `READY → PAUSED` notification (source
id 1 = pipeline id) queries the position and leaves the tracked state at
`PAUSED`. -/
theorem claim6_witness :
    Eff.queryPosition ∈ (state_changed_cb initCustomData 1 GstState.READY GstState.PAUSED
      GstState.VOID_PENDING none (some 5)).2 ∧
    (state_changed_cb initCustomData 1 GstState.READY GstState.PAUSED
      GstState.VOID_PENDING none (some 5)).1.state = GstState.PAUSED :=
  (claim6_ready_paused_refresh initCustomData 1 GstState.READY GstState.PAUSED
    GstState.VOID_PENDING none (some 5)).1 rfl rfl rfl

/-- C10 witness: double invocation restores each toggle's initial
state. -/
theorem claim10_witness :
    (button_faceblur_onoff_func (button_faceblur_onoff_func fbInit).1).1 = fbInit ∧
    (button_facearea_onoff_func (button_facearea_onoff_func faInit).1).1 = faInit ∧
    (button_numberplateblur_onoff_func (button_numberplateblur_onoff_func npInit).1).1 = npInit :=
  ⟨(claim10_toggle_involution.1 fbInit (Or.inl rfl)).1,
   (claim10_toggle_involution.2.2.1 faInit (Or.inl rfl)).1,
   (claim10_toggle_involution.2.2.2.2.1 npInit (Or.inl rfl)).1⟩

end SmartPole
